import Mathlib

/-!
Verification of the color-resolution model of the cursive theming system
(`cursive-core/src/theme/color_style.rs`): the `ColorType` and `ColorStyle`
value types, their `merge` and `resolve` operations, the named preset
constructors, and the ergonomic conversions.
-/

/-- Modelled from the spec: `BaseColor` is external to the shown file; the spec
describes a base/named color used by the `Color` type. The eight standard
terminal base colors. -/
inductive BaseColor where
  | Black
  | Red
  | Green
  | Yellow
  | Blue
  | Magenta
  | Cyan
  | White
  deriving DecidableEq, Repr

/-- Modelled from the spec: `Color` is external to the shown file; the spec
describes it as "either a terminal-default sentinel, a base/named color, or an
RGB-like value", an immutable value type. -/
inductive Color where
  | TerminalDefault
  | Dark (base : BaseColor)
  | Light (base : BaseColor)
  | Rgb (r g b : Nat)
  deriving DecidableEq, Repr

/-- Modelled from the spec: `PaletteColor` is external to the shown file; the
spec lists the fixed set of symbolic roles. -/
inductive PaletteColor where
  | Background
  | Shadow
  | View
  | Primary
  | Secondary
  | Tertiary
  | TitlePrimary
  | TitleSecondary
  | Highlight
  | HighlightInactive
  | HighlightText
  deriving DecidableEq, Repr

/-- Modelled from the spec: `Palette` is external to the shown file; the spec
describes it as a read-only total mapping from `PaletteColor` roles to
`Color` values ("role lookup must be a total function over the fixed role
set"). -/
def Palette : Type := PaletteColor → Color

/-- Modelled from the spec: `PaletteColor::resolve` is external to the shown
file; per the spec, resolving a role against a palette is the (total) palette
lookup for that role. -/
def PaletteColor.resolve (c : PaletteColor) (palette : Palette) : Color :=
  palette c

/-- Modelled from the spec: `ColorPair` is external to the shown file; the spec
describes it as a concrete (front, back) pair of colors. -/
structure ColorPair where
  front : Color
  back : Color
  deriving DecidableEq, Repr

/-- Alias for `Palette`, usable inside the `ColorType` namespace where the
bare name `Palette` refers to the constructor. -/
abbrev PaletteMap : Type := Palette

/-- Alias for `Color`, usable inside the `ColorType` namespace where the bare
name `Color` refers to the constructor. -/
abbrev ConcreteColor : Type := Color

/-- Either a color from the palette, or a direct color
(`enum ColorType` in color_style.rs). -/
inductive ColorType where
  | Palette (c : PaletteColor)
  | Color (c : Color)
  | InheritParent
  deriving DecidableEq, Repr

/-- `impl Default for ColorType`: the default value is `InheritParent`. -/
def ColorType.default : ColorType :=
  ColorType.InheritParent

/-- `ColorType::resolve`: given a palette, resolve `self` to a concrete
color. -/
def ColorType.resolve (self : ColorType) (palette : PaletteMap)
    (previous : ConcreteColor) : ConcreteColor :=
  match self with
  | ColorType.Color color => color
  | ColorType.Palette color => color.resolve palette
  | ColorType.InheritParent => previous

/-- `ColorType::merge`: merge the color type `b` over the color type `a`.
Returns `b`, unless `b = ColorType::InheritParent`, in which case it
returns `a`. -/
def ColorType.merge (a b : ColorType) : ColorType :=
  match b with
  | ColorType.InheritParent => a
  | b => b

/-- `impl From<Color> for ColorType`. -/
def ColorType.ofColor (color : ConcreteColor) : ColorType :=
  ColorType.Color color

/-- `impl From<PaletteColor> for ColorType`. -/
def ColorType.ofPaletteColor (color : PaletteColor) : ColorType :=
  ColorType.Palette color

/-- `struct ColorStyle`: a front and a back `ColorType`. -/
structure ColorStyle where
  front : ColorType
  back : ColorType
  deriving DecidableEq, Repr

/-- `ColorStyle::new`, monomorphized at `ColorType` (the Rust version takes
any pair of values convertible into `ColorType` and converts them first). -/
def ColorStyle.new (front back : ColorType) : ColorStyle :=
  { front := front, back := back }

/-- `ColorStyle::front`: uses the given color as front, inherits the parent
background color. Named `mkFront` because `front` is the field projection. -/
def ColorStyle.mkFront (front : ColorType) : ColorStyle :=
  ColorStyle.new front ColorType.InheritParent

/-- `ColorStyle::back`: uses the given color as background, inherits the
parent front color. Named `mkBack` because `back` is the field projection. -/
def ColorStyle.mkBack (back : ColorType) : ColorStyle :=
  ColorStyle.new ColorType.InheritParent back

/-- `ColorStyle::invert`: returns an inverted color style, with the front and
back colors swapped. -/
def ColorStyle.invert (self : ColorStyle) : ColorStyle :=
  { front := self.back, back := self.front }

/-- `ColorStyle::inherit_parent`: uses `ColorType::InheritParent` for both
front and background. -/
def ColorStyle.inherit_parent : ColorStyle :=
  ColorStyle.new ColorType.InheritParent ColorType.InheritParent

/-- `#[derive(Default)] struct ColorStyle`: both fields take their default
value. -/
def ColorStyle.default : ColorStyle :=
  { front := ColorType.default, back := ColorType.default }

/-- `ColorStyle::terminal_default`. -/
def ColorStyle.terminal_default : ColorStyle :=
  ColorStyle.new (ColorType.ofColor Color.TerminalDefault)
    (ColorType.ofColor Color.TerminalDefault)

/-- `ColorStyle::background`. -/
def ColorStyle.background : ColorStyle :=
  ColorStyle.new (ColorType.ofPaletteColor PaletteColor.Background)
    (ColorType.ofPaletteColor PaletteColor.Background)

/-- `ColorStyle::shadow`. -/
def ColorStyle.shadow : ColorStyle :=
  ColorStyle.new (ColorType.ofPaletteColor PaletteColor.Shadow)
    (ColorType.ofPaletteColor PaletteColor.Shadow)

/-- `ColorStyle::primary`. -/
def ColorStyle.primary : ColorStyle :=
  ColorStyle.new (ColorType.ofPaletteColor PaletteColor.Primary)
    (ColorType.ofPaletteColor PaletteColor.View)

/-- `ColorStyle::secondary`. -/
def ColorStyle.secondary : ColorStyle :=
  ColorStyle.new (ColorType.ofPaletteColor PaletteColor.Secondary)
    (ColorType.ofPaletteColor PaletteColor.View)

/-- `ColorStyle::tertiary`. -/
def ColorStyle.tertiary : ColorStyle :=
  ColorStyle.new (ColorType.ofPaletteColor PaletteColor.Tertiary)
    (ColorType.ofPaletteColor PaletteColor.View)

/-- `ColorStyle::title_primary`. -/
def ColorStyle.title_primary : ColorStyle :=
  ColorStyle.new (ColorType.ofPaletteColor PaletteColor.TitlePrimary)
    (ColorType.ofPaletteColor PaletteColor.View)

/-- `ColorStyle::title_secondary`. -/
def ColorStyle.title_secondary : ColorStyle :=
  ColorStyle.new (ColorType.ofPaletteColor PaletteColor.TitleSecondary)
    (ColorType.ofPaletteColor PaletteColor.View)

/-- `ColorStyle::highlight`. -/
def ColorStyle.highlight : ColorStyle :=
  ColorStyle.new (ColorType.ofPaletteColor PaletteColor.HighlightText)
    (ColorType.ofPaletteColor PaletteColor.Highlight)

/-- `ColorStyle::highlight_inactive`. -/
def ColorStyle.highlight_inactive : ColorStyle :=
  ColorStyle.new (ColorType.ofPaletteColor PaletteColor.HighlightText)
    (ColorType.ofPaletteColor PaletteColor.HighlightInactive)

/-- `ColorStyle::merge`: merge the style `b` over style `a`, channel by
channel. -/
def ColorStyle.merge (a b : ColorStyle) : ColorStyle :=
  { front := ColorType.merge a.front b.front
    back := ColorType.merge a.back b.back }

/-- `ColorStyle::resolve`: return the color pair that this style
represents. -/
def ColorStyle.resolve (self : ColorStyle) (palette : Palette)
    (previous : ColorPair) : ColorPair :=
  { front := self.front.resolve palette previous.front
    back := self.back.resolve palette previous.back }

/-- `impl From<Color> for ColorStyle`. -/
def ColorStyle.ofColor (color : Color) : ColorStyle :=
  ColorStyle.mkFront (ColorType.ofColor color)

/-- `impl From<BaseColor> for ColorStyle`: wraps the base color as
`Color::Dark(color)` and uses it as front. -/
def ColorStyle.ofBaseColor (color : BaseColor) : ColorStyle :=
  ColorStyle.mkFront (ColorType.ofColor (Color.Dark color))

/-- `impl From<PaletteColor> for ColorStyle`. -/
def ColorStyle.ofPaletteColor (color : PaletteColor) : ColorStyle :=
  ColorStyle.mkFront (ColorType.ofPaletteColor color)

/-- `impl From<ColorType> for ColorStyle`. -/
def ColorStyle.ofColorType (color : ColorType) : ColorStyle :=
  ColorStyle.mkFront color

/-- `impl From<(F, B)> for ColorStyle`, monomorphized at `ColorType`. -/
def ColorStyle.ofPair (front back : ColorType) : ColorStyle :=
  ColorStyle.new front back

/-- Sample palette mapping every role to the terminal default color, used to
instantiate universally quantified statements at a concrete input. -/
def samplePalette : Palette :=
  fun _ => Color.TerminalDefault

/-- Sample previously-resolved color pair, used to instantiate universally
quantified statements at a concrete input. -/
def samplePair : ColorPair :=
  { front := Color.Dark BaseColor.Red, back := Color.Dark BaseColor.Black }

/-- Helper: at the `ColorType` level, merging then resolving equals resolving
in sequence. -/
theorem ColorType.merge_resolve (a b : ColorType) (palette : PaletteMap)
    (previous : ConcreteColor) :
    (ColorType.merge a b).resolve palette previous =
      b.resolve palette (a.resolve palette previous) := by
  cases b <;> rfl

/-- Claim C1: for every palette and every previous color, `ColorType.resolve`
satisfies the three-case contract: a direct color resolves to itself, a
palette role resolves to the palette lookup of that role (independent of the
previous color), and `InheritParent` resolves to the previous color. -/
theorem colorType_resolve_contract (palette : Palette) (previous : Color) :
    (∀ c : Color, (ColorType.Color c).resolve palette previous = c) ∧
    (∀ role : PaletteColor,
      (ColorType.Palette role).resolve palette previous =
        role.resolve palette) ∧
    ColorType.InheritParent.resolve palette previous = previous :=
  ⟨fun _ => rfl, fun _ => rfl, rfl⟩

/-- Claim C2: `ColorType.merge` is right-biased and inherit-transparent:
merging `InheritParent` over any `a` gives `a`, and merging any
non-`InheritParent` value `b` over any `a` gives `b`. -/
theorem colorType_merge_right_bias :
    (∀ a : ColorType, ColorType.merge a ColorType.InheritParent = a) ∧
    (∀ a b : ColorType, b ≠ ColorType.InheritParent →
      ColorType.merge a b = b) := by
  refine ⟨fun a => rfl, fun a b hb => ?_⟩
  cases b with
  | InheritParent => exact absurd rfl hb
  | Palette c => rfl
  | Color c => rfl

/-- Witness for claim C2 at concrete inputs. -/
theorem colorType_merge_right_bias_witness :
    ColorType.merge (ColorType.Palette PaletteColor.View)
        ColorType.InheritParent = ColorType.Palette PaletteColor.View ∧
    ColorType.merge (ColorType.Palette PaletteColor.View)
        (ColorType.Color Color.TerminalDefault) =
      ColorType.Color Color.TerminalDefault :=
  ⟨colorType_merge_right_bias.1 (ColorType.Palette PaletteColor.View),
   colorType_merge_right_bias.2 (ColorType.Palette PaletteColor.View)
     (ColorType.Color Color.TerminalDefault) (by decide)⟩

/-- Claim C3: `ColorType.merge` is associative. -/
theorem colorType_merge_assoc (a b c : ColorType) :
    ColorType.merge (ColorType.merge a b) c =
      ColorType.merge a (ColorType.merge b c) := by
  cases c <;> cases b <;> rfl

/-- Claim C4: `ColorStyle.merge` acts channelwise (front of the merge is the
merge of the fronts, and likewise for back), and changing only the other
channel of either operand never changes a channel of the merged style's
resolved value. -/
theorem colorStyle_merge_channelwise (a b : ColorStyle) :
    (ColorStyle.merge a b).front = ColorType.merge a.front b.front ∧
    (ColorStyle.merge a b).back = ColorType.merge a.back b.back ∧
    (∀ (a2 b2 : ColorStyle) (palette : Palette) (previous : ColorPair),
      a2.front = a.front → b2.front = b.front →
      ((ColorStyle.merge a2 b2).resolve palette previous).front =
        ((ColorStyle.merge a b).resolve palette previous).front) ∧
    (∀ (a2 b2 : ColorStyle) (palette : Palette) (previous : ColorPair),
      a2.back = a.back → b2.back = b.back →
      ((ColorStyle.merge a2 b2).resolve palette previous).back =
        ((ColorStyle.merge a b).resolve palette previous).back) := by
  refine ⟨rfl, rfl, ?_, ?_⟩
  · intro a2 b2 palette previous ha hb
    simp [ColorStyle.merge, ColorStyle.resolve, ha, hb]
  · intro a2 b2 palette previous ha hb
    simp [ColorStyle.merge, ColorStyle.resolve, ha, hb]

/-- Witness for claim C4 at concrete inputs: replacing the base operand
`primary()` by a style with the same front but a different back leaves the
resolved front channel unchanged. -/
theorem colorStyle_merge_channelwise_witness :
    ((ColorStyle.merge
        (ColorStyle.mkFront (ColorType.ofPaletteColor PaletteColor.Primary))
        ColorStyle.highlight).resolve samplePalette samplePair).front =
      ((ColorStyle.merge ColorStyle.primary
        ColorStyle.highlight).resolve samplePalette samplePair).front :=
  (colorStyle_merge_channelwise ColorStyle.primary ColorStyle.highlight).2.2.1
    (ColorStyle.mkFront (ColorType.ofPaletteColor PaletteColor.Primary))
    ColorStyle.highlight samplePalette samplePair rfl rfl

/-- Claim C5: each named preset constructor returns exactly the front/back
pairing of the role table. -/
theorem colorStyle_preset_table :
    ColorStyle.terminal_default =
      { front := ColorType.Color Color.TerminalDefault
        back := ColorType.Color Color.TerminalDefault } ∧
    ColorStyle.background =
      { front := ColorType.Palette PaletteColor.Background
        back := ColorType.Palette PaletteColor.Background } ∧
    ColorStyle.shadow =
      { front := ColorType.Palette PaletteColor.Shadow
        back := ColorType.Palette PaletteColor.Shadow } ∧
    ColorStyle.primary =
      { front := ColorType.Palette PaletteColor.Primary
        back := ColorType.Palette PaletteColor.View } ∧
    ColorStyle.secondary =
      { front := ColorType.Palette PaletteColor.Secondary
        back := ColorType.Palette PaletteColor.View } ∧
    ColorStyle.tertiary =
      { front := ColorType.Palette PaletteColor.Tertiary
        back := ColorType.Palette PaletteColor.View } ∧
    ColorStyle.title_primary =
      { front := ColorType.Palette PaletteColor.TitlePrimary
        back := ColorType.Palette PaletteColor.View } ∧
    ColorStyle.title_secondary =
      { front := ColorType.Palette PaletteColor.TitleSecondary
        back := ColorType.Palette PaletteColor.View } ∧
    ColorStyle.highlight =
      { front := ColorType.Palette PaletteColor.HighlightText
        back := ColorType.Palette PaletteColor.Highlight } ∧
    ColorStyle.highlight_inactive =
      { front := ColorType.Palette PaletteColor.HighlightText
        back := ColorType.Palette PaletteColor.HighlightInactive } :=
  ⟨rfl, rfl, rfl, rfl, rfl, rfl, rfl, rfl, rfl, rfl⟩

/-- Claim C6: `ColorStyle.invert` is an involution and swaps the two
channels. -/
theorem colorStyle_invert_involution (s : ColorStyle) :
    s.invert.invert = s ∧ s.invert.front = s.back ∧ s.invert.back = s.front :=
  ⟨rfl, rfl, rfl⟩

/-- Claim C7: every ergonomic conversion into `ColorStyle` is equivalent to a
canonical constructor: the `Color`, base-color, `PaletteColor` and
`ColorType` conversions equal `ColorStyle::front` of the converted value, and
the tuple conversion equals `ColorStyle::new`. -/
theorem colorStyle_from_conversions :
    (∀ c : Color,
      ColorStyle.ofColor c = ColorStyle.mkFront (ColorType.ofColor c)) ∧
    (∀ b : BaseColor,
      ColorStyle.ofBaseColor b =
        ColorStyle.mkFront (ColorType.ofColor (Color.Dark b))) ∧
    (∀ p : PaletteColor,
      ColorStyle.ofPaletteColor p =
        ColorStyle.mkFront (ColorType.ofPaletteColor p)) ∧
    (∀ t : ColorType, ColorStyle.ofColorType t = ColorStyle.mkFront t) ∧
    (∀ f b : ColorType, ColorStyle.ofPair f b = ColorStyle.new f b) :=
  ⟨fun _ => rfl, fun _ => rfl, fun _ => rfl, fun _ => rfl, fun _ _ => rfl⟩

/-- Claim C8: the default `ColorType` is `InheritParent`, the default
`ColorStyle` is the fully transparent style, and resolving the default style
against any palette and previous pair returns the previous pair unchanged. -/
theorem colorStyle_default_transparent :
    ColorType.default = ColorType.InheritParent ∧
    ColorStyle.default =
      { front := ColorType.InheritParent, back := ColorType.InheritParent } ∧
    (∀ (palette : Palette) (previous : ColorPair),
      ColorStyle.default.resolve palette previous = previous) :=
  ⟨rfl, rfl, fun _ _ => rfl⟩

/-- Claim C9: merging then resolving equals resolving in sequence: for every
palette, previous pair and styles a and b, resolving the merged style equals
resolving b against the result of resolving a. -/
theorem colorStyle_merge_resolve (a b : ColorStyle) (palette : Palette)
    (previous : ColorPair) :
    (ColorStyle.merge a b).resolve palette previous =
      b.resolve palette (a.resolve palette previous) := by
  obtain ⟨bf, bb⟩ := b
  cases bf <;> cases bb <;> rfl

/-- Claim C10: `InheritParent` is also a left identity for `ColorType.merge`,
and merging the fully transparent style `inherit_parent()` as the base
operand leaves any override style unchanged. -/
theorem colorType_merge_left_identity :
    (∀ b : ColorType, ColorType.merge ColorType.InheritParent b = b) ∧
    (∀ s : ColorStyle, ColorStyle.merge ColorStyle.inherit_parent s = s) := by
  refine ⟨fun b => ?_, fun s => ?_⟩
  · cases b <;> rfl
  · obtain ⟨f, b⟩ := s
    cases f <;> cases b <;> rfl
